import Mathlib

/-!
# Verification of the DNS challenge-record lifecycle core

A shallow embedding of the DNS provider abstraction and challenge-record
lifecycle of the certificate automation tool:

* `providers/base.py` — the provider-agnostic record lifecycle helpers
  (`find_txt_records`, `check_subdomain_exists`, `cleanup_txt_records`);
* `providers/__init__.py` — the provider registry (`PROVIDERS`, `get_provider`);
* `providers/digitalocean.py` — the concrete provider's create/delete behaviour
  as a function of the backend request outcome;
* `auth-hook.py` and `cleanup-hook.py` — the two hook entry points, in
  particular their domain-splitting logic and the creation hook's control flow.

Stateful and effectful parts are embedded as explicit parameters: a provider's
backend is a function `String → List Record` (the outcome of
`fetch_domain_records`), deletion outcomes are a function
`String → Nat → Bool`, the process environment is `String → Option String`,
and a fallible computation returns `Except`/`Option` values instead of
raising.  Python string primitives used by the source (`str.split(".")`,
`".".join`, `str.lower()`) are modelled by structurally recursive functions so
that every definition evaluates inside the kernel.
-/

/-- A DNS resource record as exposed by a provider: the dict
`{"id": ..., "name": ..., "type": ..., "data": ...}` built by
`fetch_domain_records` (providers/digitalocean.py, lines 44-55).  Record ids
are provider-assigned integers. -/
structure Record where
  id : Nat
  name : String
  type : String
  data : String
deriving DecidableEq, Repr

/-- Splitting a character list at every occurrence of a dot.  Auxiliary for
`pySplitDot`; the result is always non-empty. -/
def pySplitDotAux : List Char → List (List Char)
  | [] => [[]]
  | c :: cs =>
    match pySplitDotAux cs with
    | [] => [[]]
    | r :: rs => if c = '.' then [] :: r :: rs else (c :: r) :: rs

/-- Model of Python `s.split(".")` (used as `domain.split(".")` in
auth-hook.py line 39 and cleanup-hook.py line 35): the maximal dot-free
segments of `s`, so that for example `"a.b.c"` yields `["a", "b", "c"]`,
`""` yields `[""]` and `"."` yields `["", ""]`. -/
def pySplitDot (s : String) : List String :=
  (pySplitDotAux s.data).map (fun cs => String.mk cs)

/-- Model of Python `s.lower()` for the ASCII provider names this program
uses: lowercase every character. -/
def pyLower (s : String) : String :=
  String.mk (s.data.map Char.toLower)

/-- The derivation of `(root_domain, subdomain, record_name)` performed by the
creation hook (auth-hook.py, lines 38-47):

```
parts = domain.split(".")
if len(parts) > 2:
    root_domain = ".".join(parts[-2:])
    subdomain = ".".join(parts[:-2])
    record_name = f"_acme-challenge.{subdomain}"
else:
    root_domain = domain
    subdomain = ""
    record_name = "_acme-challenge"
```

Python's `parts[-2:]` and `parts[:-2]` are `drop (len - 2)` and
`take (len - 2)`; in the branch taken they agree because `len > 2`. -/
def authHookDeriveTarget (domain : String) : String × String × String :=
  let parts := pySplitDot domain
  if parts.length > 2 then
    (String.intercalate "." (parts.drop (parts.length - 2)),
     String.intercalate "." (parts.take (parts.length - 2)),
     "_acme-challenge." ++ String.intercalate "." (parts.take (parts.length - 2)))
  else
    (domain, "", "_acme-challenge")

/-- The derivation of `(root_domain, subdomain, record_name)` performed by the
cleanup hook (cleanup-hook.py, lines 34-43); the source lines are
character-for-character the same as the creation hook's. -/
def cleanupHookDeriveTarget (domain : String) : String × String × String :=
  let parts := pySplitDot domain
  if parts.length > 2 then
    (String.intercalate "." (parts.drop (parts.length - 2)),
     String.intercalate "." (parts.take (parts.length - 2)),
     "_acme-challenge." ++ String.intercalate "." (parts.take (parts.length - 2)))
  else
    (domain, "", "_acme-challenge")

/-- `DNSProvider.find_txt_records` (providers/base.py, lines 83-95):

```
records = self.fetch_domain_records(domain)
return [r for r in records if r['type'] == 'TXT' and r['name'] == record_name]
```

The provider's backend state is embedded as the function `fetch`, the outcome
of `fetch_domain_records`. -/
def find_txt_records (fetch : String → List Record)
    (domain record_name : String) : List Record :=
  (fetch domain).filter (fun r => r.type == "TXT" && r.name == record_name)

/-- `DNSProvider.check_subdomain_exists` (providers/base.py, lines 97-114):
returns `True` immediately when `subdomain` is falsy (the empty string),
otherwise scans the fetched records for one with the subdomain's name and
type `A`. -/
def check_subdomain_exists (fetch : String → List Record)
    (domain subdomain : String) : Bool :=
  if subdomain = "" then
    true
  else
    (fetch domain).any (fun r => r.name == subdomain && r.type == "A")

/-- `DNSProvider.cleanup_txt_records` (providers/base.py, lines 116-132):

```
records = self.find_txt_records(domain, record_name)
deleted = 0
for rec in records:
    if self.delete_txt_record(domain, rec['id']):
        deleted += 1
return deleted
```

The outcome of each `delete_txt_record(domain, id)` call is embedded as the
function `deleteok` (the concrete provider returns a boolean and never raises,
see `doDeleteTxtRecord`). -/
def cleanup_txt_records (fetch : String → List Record)
    (deleteok : String → Nat → Bool) (domain record_name : String) : Nat :=
  let records := find_txt_records fetch domain record_name
  records.foldl (fun deleted rec => if deleteok domain rec.id then deleted + 1 else deleted) 0

/-- The sequence of record ids that the loop of `cleanup_txt_records` passes
to `delete_txt_record` (providers/base.py, line 130: one call per record in
`records`, with argument `rec['id']`, unconditionally). -/
def cleanup_delete_calls (fetch : String → List Record)
    (domain record_name : String) : List Nat :=
  (find_txt_records fetch domain record_name).map (fun rec => rec.id)

/-- The registry-visible metadata of a provider class: its `name` and
`env_token_name` class attributes (providers/base.py, lines 17-18;
providers/digitalocean.py, lines 10-11). -/
structure ProviderClass where
  name : String
  env_token_name : String
deriving DecidableEq, Repr

/-- `DigitalOceanProvider`'s registry metadata
(providers/digitalocean.py, lines 10-11). -/
def DigitalOceanProvider : ProviderClass :=
  { name := "digitalocean", env_token_name := "DIGITALOCEAN_API_TOKEN" }

/-- The provider registry `PROVIDERS` (providers/__init__.py, lines 6-8),
as an association list preserving the dict's insertion order. -/
def PROVIDERS : List (String × ProviderClass) :=
  [("digitalocean", DigitalOceanProvider)]

/-- `get_provider` (providers/__init__.py, lines 11-17):

```
provider_class = PROVIDERS.get(name.lower())
if not provider_class:
    available = ", ".join(PROVIDERS.keys())
    raise ValueError(f"Unknown provider: {name}. Available: {available}")
return provider_class
```

A raised `ValueError` is embedded as `Except.error` carrying the message. -/
def get_provider (name : String) : Except String ProviderClass :=
  match PROVIDERS.lookup (pyLower name) with
  | some provider_class => Except.ok provider_class
  | none =>
      Except.error ("Unknown provider: " ++ name ++ ". Available: " ++
        String.intercalate ", " (PROVIDERS.map Prod.fst))

/-- A successful DigitalOcean API response body, as consumed by
`create_txt_record`: `result.get("domain_record", {})` is `none` when the
`domain_record` key is absent or its value is the falsy empty dict. -/
structure DoJson where
  domain_record : Option Record
deriving DecidableEq, Repr

/-- `DigitalOceanProvider.create_txt_record` (providers/digitalocean.py,
lines 57-73) as a function of the outcome of its `self._request` call:

* `_request` raised `requests.RequestException` (network failure, or a
  non-2xx status via `raise_for_status`) — the `except` clause returns `None`
  (`Except.ok none`);
* `_request` returned `None` (a 204 body): `result.get` then raises an
  `AttributeError`, which `except requests.RequestException` does not catch,
  so it propagates (`Except.error`);
* `_request` returned a JSON body — the function returns
  `result.get("domain_record", {})`, truthy exactly when the key is present
  with a non-empty record. -/
def doCreateTxtRecord (request : Except String (Option DoJson)) :
    Except String (Option Record) :=
  match request with
  | Except.ok (some result) => Except.ok result.domain_record
  | Except.ok none => Except.error "AttributeError"
  | Except.error _ => Except.ok none

/-- `DigitalOceanProvider.delete_txt_record` (providers/digitalocean.py,
lines 75-83) as a function of the outcome of its `self._request` call: `True`
when the request succeeded (DELETE answers 204, so the body is `none`),
`False` when `_request` raised `requests.RequestException` — including the
`HTTPError` that `raise_for_status` raises for a 404 not-found. -/
def doDeleteTxtRecord (request : Except String (Option DoJson)) : Bool :=
  match request with
  | Except.ok _ => true
  | Except.error _ => false

/-- `main` of auth-hook.py (lines 25-74), returning the process exit status
together with the list of `create_txt_record` invocations (the hook's only
network call).  The environment is `env`; the outcome of
`provider.create_txt_record(root_domain, record_name, validation, ttl=60)` is
the function `create`.  `sys.exit(1)` on missing inputs (line 32), on a
caught exception — in particular `get_provider`'s `ValueError` (line 74) —,
on a missing API token (line 59) and on a falsy created record (line 70);
exit status `0` after the propagation sleep otherwise. -/
def authHookMain (env : String → Option String)
    (create : String → String → String → Nat → Option Record) :
    Nat × List (String × String × String × Nat) :=
  let domain := (env "CERTBOT_DOMAIN").getD ""
  let validation := (env "CERTBOT_VALIDATION").getD ""
  let provider_name := (env "DNS_PROVIDER").getD "digitalocean"
  if domain = "" ∨ validation = "" then
    (1, [])
  else
    let target := authHookDeriveTarget domain
    match get_provider provider_name with
    | Except.error _ => (1, [])
    | Except.ok provider_class =>
      let api_token := (env provider_class.env_token_name).getD ""
      if api_token = "" then
        (1, [])
      else
        match create target.1 target.2.2 validation 60 with
        | some _ => (0, [(target.1, target.2.2, validation, 60)])
        | none => (1, [(target.1, target.2.2, validation, 60)])

/-! ## Helper lemmas -/

/-- ASCII lowercasing is idempotent on characters. -/
theorem char_toLower_idem (c : Char) : c.toLower.toLower = c.toLower := by
  unfold Char.toLower
  by_cases h : c.toNat ≥ 65 ∧ c.toNat ≤ 90
  · rw [if_pos h]
    have hv : (Char.ofNat (c.toNat + 32)).toNat = c.toNat + 32 := by
      rw [Char.ofNat, dif_pos]
      · rfl
      · exact Or.inl (by omega)
    rw [if_neg]
    rw [hv]
    omega
  · simp only [if_neg h]

/-- The model of Python str.lower is idempotent. -/
theorem pyLower_idem (s : String) : pyLower (pyLower s) = pyLower s := by
  unfold pyLower
  simp only [List.map_map]
  congr 1
  exact List.map_congr_left (fun c _ => by simp [Function.comp, char_toLower_idem])

/-- Membership in the result of find_txt_records. -/
theorem mem_find_txt_records (fetch : String → List Record)
    (domain record_name : String) (r : Record) :
    r ∈ find_txt_records fetch domain record_name ↔
      (r ∈ fetch domain ∧ r.type = "TXT" ∧ r.name = record_name) := by
  simp [find_txt_records, List.mem_filter, Bool.and_eq_true, beq_iff_eq, and_assoc]

/-- A fold that increments on a test counts the elements passing the test. -/
theorem foldl_if_count {α : Type} (p : α → Bool) (l : List α) (n : Nat) :
    l.foldl (fun acc x => if p x then acc + 1 else acc) n = n + l.countP p := by
  induction l generalizing n with
  | nil => simp
  | cons a l ih =>
    rw [List.foldl_cons, ih, List.countP_cons]
    by_cases h : p a = true
    · rw [if_pos h, if_pos h]
      omega
    · rw [if_neg h, if_neg h]
      omega

/-! ## Claim theorems -/

/-- C1: the creation hook and the cleanup hook compute identical
(root domain, subdomain, record name) triples from the same domain string, and
consequently, on a provider state holding the record creation made (plus any
records not matching the challenge name and type), cleanup passes exactly the
created record's id to delete_txt_record. -/
theorem hook_record_name_roundtrip (D : String) :
    authHookDeriveTarget D = cleanupHookDeriveTarget D ∧
    (∀ (created : Record) (others : List Record),
      created.type = "TXT" →
      created.name = (authHookDeriveTarget D).2.2 →
      (∀ r ∈ others, r.type ≠ "TXT" ∨ r.name ≠ (authHookDeriveTarget D).2.2) →
      cleanup_delete_calls (fun _ => created :: others)
          (cleanupHookDeriveTarget D).1 (cleanupHookDeriveTarget D).2.2 =
        [created.id]) := by
  constructor
  · rfl
  · intro created others hty hname hothers
    have hsame : cleanupHookDeriveTarget D = authHookDeriveTarget D := rfl
    rw [hsame]
    unfold cleanup_delete_calls find_txt_records
    have hpc : (created.type == "TXT" && created.name == (authHookDeriveTarget D).2.2) = true := by
      rw [Bool.and_eq_true, beq_iff_eq, beq_iff_eq]
      exact ⟨hty, hname⟩
    have hno : ∀ r ∈ others,
        ¬((r.type == "TXT" && r.name == (authHookDeriveTarget D).2.2) = true) := by
      intro r hr hcontra
      rw [Bool.and_eq_true, beq_iff_eq, beq_iff_eq] at hcontra
      rcases hothers r hr with h | h
      · exact h hcontra.1
      · exact h hcontra.2
    simp only [List.filter_cons, hpc, if_pos, List.filter_eq_nil_iff.mpr hno, List.map_cons,
      List.map_nil]

/-- C2: for a domain whose dot-split has more than two labels, the derived
root domain is the last two labels joined by a dot, the subdomain is the
preceding labels joined by dots, and the record name prefixes the subdomain
with the challenge label; for two or fewer labels the domain is kept whole,
the subdomain is empty and the record name is the bare challenge label. -/
theorem derive_challenge_target_spec (D : String) :
    ((pySplitDot D).length ≤ 2 →
      authHookDeriveTarget D = (D, "", "_acme-challenge")) ∧
    (∀ pre a b, pySplitDot D = pre ++ [a, b] → pre ≠ [] →
      authHookDeriveTarget D =
        (String.intercalate "." [a, b], String.intercalate "." pre,
         "_acme-challenge." ++ String.intercalate "." pre)) := by
  constructor
  · intro hle
    unfold authHookDeriveTarget
    rw [if_neg (by omega)]
  · intro pre a b hsplit hpre
    have hlen : (pySplitDot D).length = pre.length + 2 := by
      rw [hsplit]
      simp
    have hgt : (pySplitDot D).length > 2 := by
      have : 0 < pre.length := List.length_pos.mpr hpre
      omega
    have hsub : (pySplitDot D).length - 2 = pre.length := by omega
    have hdrop : (pySplitDot D).drop ((pySplitDot D).length - 2) = [a, b] := by
      rw [hsub, hsplit]
      exact List.drop_left pre [a, b]
    have htake : (pySplitDot D).take ((pySplitDot D).length - 2) = pre := by
      rw [hsub, hsplit]
      exact List.take_left pre [a, b]
    unfold authHookDeriveTarget
    rw [if_pos hgt, hdrop, htake]

/-- C3: find_txt_records returns exactly those fetched records whose type is
TXT and whose name equals the target name; different type or different name
excludes a record, and matching is exact. -/
theorem find_txt_records_exact (fetch : String → List Record)
    (domain record_name : String) (r : Record) :
    r ∈ find_txt_records fetch domain record_name ↔
      (r ∈ fetch domain ∧ r.type = "TXT" ∧ r.name = record_name) :=
  mem_find_txt_records fetch domain record_name r

/-- C4: cleanup_txt_records returns the number of found records whose deletion
succeeded — the loop runs the deletion attempt on every found record and
counting continues past failed deletions — and on zero matches it returns 0. -/
theorem cleanup_txt_records_count (fetch : String → List Record)
    (deleteok : String → Nat → Bool) (domain record_name : String) :
    cleanup_txt_records fetch deleteok domain record_name =
      (find_txt_records fetch domain record_name).countP
        (fun r => deleteok domain r.id) ∧
    (find_txt_records fetch domain record_name = [] →
      cleanup_txt_records fetch deleteok domain record_name = 0) := by
  have hmain : cleanup_txt_records fetch deleteok domain record_name =
      (find_txt_records fetch domain record_name).countP
        (fun r => deleteok domain r.id) := by
    unfold cleanup_txt_records
    rw [foldl_if_count]
    omega
  refine ⟨hmain, fun h => ?_⟩
  rw [hmain, h]
  rfl

/-- C5: check_subdomain_exists is unconditionally true on the empty
subdomain, and for a non-empty subdomain it is true exactly when some fetched
record carries that name with type A. -/
theorem check_subdomain_exists_spec (fetch : String → List Record)
    (domain subdomain : String) :
    (subdomain = "" → check_subdomain_exists fetch domain subdomain = true) ∧
    (subdomain ≠ "" →
      (check_subdomain_exists fetch domain subdomain = true ↔
        ∃ r ∈ fetch domain, r.name = subdomain ∧ r.type = "A")) := by
  constructor
  · intro h
    simp [check_subdomain_exists, h]
  · intro h
    simp [check_subdomain_exists, h, List.any_eq_true, Bool.and_eq_true, beq_iff_eq]

/-- C6: get_provider looks its argument up after lowercasing — it succeeds
with a provider class exactly when the lowercased name succeeds with the same
class — and on an unregistered lowercased name it fails with the unknown
provider error enumerating every registered provider name. -/
theorem get_provider_case_insensitive (name : String) :
    (∀ pc, get_provider name = Except.ok pc ↔
      get_provider (pyLower name) = Except.ok pc) ∧
    (PROVIDERS.lookup (pyLower name) = none →
      get_provider name =
        Except.error ("Unknown provider: " ++ name ++ ". Available: " ++
          String.intercalate ", " (PROVIDERS.map Prod.fst))) := by
  constructor
  · intro pc
    unfold get_provider
    rw [pyLower_idem]
    cases h : PROVIDERS.lookup (pyLower name) <;> simp
  · intro h
    unfold get_provider
    rw [h]

/-- C7: when the backend request fails, the DigitalOcean create_txt_record
returns the null sentinel instead of raising, and a creation hook run whose
create_txt_record call yields the null sentinel exits with status 1. -/
theorem create_failure_exits_nonzero :
    (∀ e, doCreateTxtRecord (Except.error e) = Except.ok none) ∧
    (∀ (env : String → Option String)
        (create : String → String → String → Nat → Option Record),
      (∀ d r v t, create d r v t = none) →
      (authHookMain env create).1 = 1) := by
  refine ⟨fun e => rfl, ?_⟩
  intro env create h
  simp only [authHookMain]
  by_cases hdv : (env "CERTBOT_DOMAIN").getD "" = "" ∨ (env "CERTBOT_VALIDATION").getD "" = ""
  · rw [if_pos hdv]
  · rw [if_neg hdv]
    cases hgp : get_provider ((env "DNS_PROVIDER").getD "digitalocean") with
    | error e => rfl
    | ok pc =>
      dsimp only
      by_cases htok : (env pc.env_token_name).getD "" = ""
      · rw [if_pos htok]
      · rw [if_neg htok, h]

/-- C8: the DigitalOcean delete_txt_record answers false whenever the backend
request raised — not-found included, since raise_for_status turns a 404 into
a raised HTTPError — and answers true exactly when the backend confirmed the
deletion with a successful response. -/
theorem delete_returns_false_on_failure (request : Except String (Option DoJson)) :
    (∀ e, doDeleteTxtRecord (Except.error e) = false) ∧
    (doDeleteTxtRecord request = true ↔ ∃ body, request = Except.ok body) := by
  refine ⟨fun e => rfl, ?_⟩
  cases request with
  | ok body => simp [doDeleteTxtRecord]
  | error e => simp [doDeleteTxtRecord]

/-- C9: the creation hook exits with status 1 and performs no
create_txt_record call when the domain or validation input is absent, when
the provider name is unknown to the registry, or when the provider's
credential environment variable is unset. -/
theorem auth_hook_config_errors (env : String → Option String)
    (create : String → String → String → Nat → Option Record) :
    ((env "CERTBOT_DOMAIN").getD "" = "" ∨ (env "CERTBOT_VALIDATION").getD "" = "" →
      authHookMain env create = (1, [])) ∧
    (∀ e, get_provider ((env "DNS_PROVIDER").getD "digitalocean") = Except.error e →
      authHookMain env create = (1, [])) ∧
    (∀ pc, get_provider ((env "DNS_PROVIDER").getD "digitalocean") = Except.ok pc →
      (env pc.env_token_name).getD "" = "" →
      authHookMain env create = (1, [])) := by
  refine ⟨fun hdv => ?_, fun e hgp => ?_, fun pc hgp htok => ?_⟩
  · simp only [authHookMain]
    rw [if_pos hdv]
  · simp only [authHookMain]
    by_cases hdv : (env "CERTBOT_DOMAIN").getD "" = "" ∨ (env "CERTBOT_VALIDATION").getD "" = ""
    · rw [if_pos hdv]
    · rw [if_neg hdv, hgp]
  · simp only [authHookMain]
    by_cases hdv : (env "CERTBOT_DOMAIN").getD "" = "" ∨ (env "CERTBOT_VALIDATION").getD "" = ""
    · rw [if_pos hdv]
    · rw [if_neg hdv, hgp]
      dsimp only
      rw [if_pos htok]

/-- C10: every record id that cleanup_txt_records passes to
delete_txt_record belongs to a fetched record of type TXT whose name equals
the challenge record name; no other record of the domain is ever the subject
of a deletion attempt. -/
theorem cleanup_delete_calls_frame (fetch : String → List Record)
    (domain record_name : String) :
    ∀ i ∈ cleanup_delete_calls fetch domain record_name,
      ∃ r ∈ fetch domain, r.id = i ∧ r.type = "TXT" ∧ r.name = record_name := by
  intro i hi
  unfold cleanup_delete_calls at hi
  rcases List.mem_map.mp hi with ⟨r, hr, hid⟩
  have hprop := (mem_find_txt_records fetch domain record_name r).mp hr
  exact ⟨r, hprop.1, hid, hprop.2.1, hprop.2.2⟩

/-! ## Witnesses -/

/-- Witness for C1 at the domain www.example.com: given the created challenge
record (id 101) next to an unrelated A record, cleanup passes exactly id 101
to delete_txt_record. -/
theorem hook_record_name_roundtrip_witness :
    cleanup_delete_calls
        (fun _ => [⟨101, "_acme-challenge.www", "TXT", "token"⟩,
                   ⟨5, "www", "A", "1.2.3.4"⟩])
        (cleanupHookDeriveTarget "www.example.com").1
        (cleanupHookDeriveTarget "www.example.com").2.2 = [101] :=
  (hook_record_name_roundtrip "www.example.com").2
    ⟨101, "_acme-challenge.www", "TXT", "token"⟩
    [⟨5, "www", "A", "1.2.3.4"⟩]
    rfl (by decide) (by decide)

/-- Witness for C2 at www.example.com: three labels, root example.com,
subdomain www, challenge record name for www. -/
theorem derive_challenge_target_spec_witness :
    pySplitDot "www.example.com" = ["www"] ++ ["example", "com"] ∧
    authHookDeriveTarget "www.example.com" =
      (String.intercalate "." ["example", "com"], String.intercalate "." ["www"],
       "_acme-challenge." ++ String.intercalate "." ["www"]) :=
  ⟨by decide,
    (derive_challenge_target_spec "www.example.com").2 ["www"] "example" "com"
      (by decide) (by decide)⟩

/-- Witness for C4 on a provider state with no records: zero matches, count
zero. -/
theorem cleanup_txt_records_count_witness :
    find_txt_records (fun _ => []) "example.com" "_acme-challenge" = [] ∧
    cleanup_txt_records (fun _ => []) (fun _ _ => true) "example.com" "_acme-challenge" = 0 :=
  ⟨rfl,
    (cleanup_txt_records_count (fun _ => []) (fun _ _ => true)
      "example.com" "_acme-challenge").2 rfl⟩

/-- Witness for C5: the empty subdomain passes unconditionally, and the
subdomain www passes on a state holding an A record named www. -/
theorem check_subdomain_exists_spec_witness :
    check_subdomain_exists (fun _ => [⟨5, "www", "A", "1.2.3.4"⟩]) "example.com" "" = true ∧
    check_subdomain_exists (fun _ => [⟨5, "www", "A", "1.2.3.4"⟩]) "example.com" "www" = true :=
  ⟨(check_subdomain_exists_spec (fun _ => [⟨5, "www", "A", "1.2.3.4"⟩]) "example.com" "").1 rfl,
    ((check_subdomain_exists_spec (fun _ => [⟨5, "www", "A", "1.2.3.4"⟩]) "example.com" "www").2
        (by decide)).mpr
      ⟨⟨5, "www", "A", "1.2.3.4"⟩, by decide, rfl, rfl⟩⟩

/-- Witness for C6 at the unregistered name NoSuchDNS: the lookup misses and
the error enumerates the registered names. -/
theorem get_provider_case_insensitive_witness :
    PROVIDERS.lookup (pyLower "NoSuchDNS") = none ∧
    get_provider "NoSuchDNS" =
      Except.error ("Unknown provider: " ++ "NoSuchDNS" ++ ". Available: " ++
        String.intercalate ", " (PROVIDERS.map Prod.fst)) :=
  ⟨by decide, (get_provider_case_insensitive "NoSuchDNS").2 (by decide)⟩

/-- Witness for C7: with a fully configured environment and a backend whose
create_txt_record yields the null sentinel, the creation hook exits 1. -/
theorem create_failure_exits_nonzero_witness :
    (authHookMain
        (fun k => if k = "CERTBOT_DOMAIN" then some "www.example.com"
          else if k = "CERTBOT_VALIDATION" then some "abc123"
          else if k = "DIGITALOCEAN_API_TOKEN" then some "secret" else none)
        (fun _ _ _ _ => none)).1 = 1 :=
  create_failure_exits_nonzero.2
    (fun k => if k = "CERTBOT_DOMAIN" then some "www.example.com"
      else if k = "CERTBOT_VALIDATION" then some "abc123"
      else if k = "DIGITALOCEAN_API_TOKEN" then some "secret" else none)
    (fun _ _ _ _ => none)
    (fun _ _ _ _ => rfl)

/-- Witness for C9: with an empty environment the creation hook exits 1
without attempting any record creation. -/
theorem auth_hook_config_errors_witness :
    authHookMain (fun _ => none) (fun _ _ _ _ => some ⟨1, "n", "TXT", "d"⟩) = (1, []) :=
  (auth_hook_config_errors (fun _ => none) (fun _ _ _ _ => some ⟨1, "n", "TXT", "d"⟩)).1
    (Or.inl rfl)

/-- Witness for C10: on a state whose only record is the challenge TXT record
with id 7, the attempted id 7 is accounted for by that record. -/
theorem cleanup_delete_calls_frame_witness :
    ∃ r ∈ [(⟨7, "_acme-challenge", "TXT", "x"⟩ : Record)],
      r.id = 7 ∧ r.type = "TXT" ∧ r.name = "_acme-challenge" :=
  cleanup_delete_calls_frame (fun _ => [⟨7, "_acme-challenge", "TXT", "x"⟩])
    "example.com" "_acme-challenge" 7 (by decide)
